import Mathlib

/-!
Shallow embedding of the authentication/session-lifecycle component of the
OutlookConnector repository (`src/auth/AuthService.ts`, types from
`src/types/auth.ts`, display rendering from `src/taskpane/taskpane.ts`).

JavaScript values that may be `undefined` are modelled as `Option _`;
JavaScript truthiness (`''`, `0`, `undefined`/`null` are falsy) is modelled
explicitly by the `js*` helpers.  External collaborators (the `oidc-client`
`UserManager`, the network, browser storage and the builtins `atob` /
`JSON.parse`) are modelled as explicit parameters describing their outcome,
never as code of the component itself.
-/

namespace OutlookConnector

/-- JS truthiness of an optional string: `undefined` and `''` are falsy. -/
def jsStrTruthy : Option String → Bool
  | none => false
  | some s => s ≠ ""

/-- JS falsiness of an optional number: `undefined` and `0` are falsy. -/
def jsNumFalsy : Option Nat → Bool
  | none => true
  | some n => n == 0

/-- `x || null` on an optional string: collapses `undefined` and `''` to `null`. -/
def jsStrOrNull : Option String → Option String
  | none => none
  | some s => if s = "" then none else some s

/-- `x || dflt` on an optional string. -/
def jsStrOr (x : Option String) (dflt : String) : String :=
  match x with
  | none => dflt
  | some s => if s = "" then dflt else s

/-- `x || y` where both sides are optional strings (used for `org || organization`). -/
def jsStrOrOpt (x y : Option String) : Option String :=
  if jsStrTruthy x then x else y

/-- `x || dflt` on an optional number (`0` falls through to the default). -/
def jsNumOr (x : Option Nat) (dflt : Nat) : Nat :=
  match x with
  | none => dflt
  | some n => if n = 0 then dflt else n

/-- A JS `roles` claim: either an array of strings or a single string
(`Array.isArray(profile.roles) ? profile.roles : [profile.roles]`). -/
inductive RolesVal where
  | arr (l : List String)
  | single (s : String)
deriving DecidableEq

/-- The decoded claims object of an ID token (the `user.profile` object of the
`oidc-client` `User`, equivalently the decoded JWT payload).  Fields the
component reads; absent claims are `none`. -/
structure TokenPayload where
  sub : String
  name : Option String
  preferred_username : Option String
  email : Option String
  email_verified : Option Bool
  org : Option String
  organization : Option String
  roles : Option RolesVal
  iat : Option Nat
  exp : Option Nat
deriving DecidableEq

/-- The stored `oidc-client` `User` object, restricted to the fields
`AuthService` reads: `expires_at`, `id_token`, `access_token`, `profile`. -/
structure StoredUser where
  expires_at : Option Nat
  id_token : Option String
  access_token : Option String
  profile : TokenPayload
deriving DecidableEq

/-- `UserProfile` from `src/types/auth.ts`. -/
structure UserProfile where
  sub : String
  name : String
  email : String
  email_verified : Option Bool
  org : Option String
  roles : List String
  iat : Nat
  exp : Nat
deriving DecidableEq

/-- `AuthState` from `src/types/auth.ts`. -/
structure AuthState where
  isAuthenticated : Bool
  user : Option UserProfile
  isLoading : Bool
  error : Option String
deriving DecidableEq

/-- `AuthenticationError` from `src/types/auth.ts`: message plus optional code. -/
structure AuthenticationError where
  message : String
  code : Option String
deriving DecidableEq

/-- `profile.roles ? (Array.isArray(profile.roles) ? profile.roles : [profile.roles]) : []`.
An empty array is truthy in JS; an empty string is falsy. -/
def extractRoles : Option RolesVal → List String
  | none => []
  | some (.arr l) => l
  | some (.single s) => if s = "" then [] else [s]

/-- `AuthService.extractUserProfile` (AuthService.ts lines 412-424).
`now` is `Math.floor(Date.now() / 1000)`. -/
def extractUserProfile (now : Nat) (p : TokenPayload) : UserProfile :=
  { sub := p.sub
    name := jsStrOr p.name (jsStrOr p.preferred_username "Unknown")
    email := jsStrOr p.email ""
    email_verified := p.email_verified
    org := jsStrOrOpt p.org p.organization
    roles := extractRoles p.roles
    iat := jsNumOr p.iat now
    exp := jsNumOr p.exp (now + 3600) }

/-- `const expirationBuffer = isOfficeAddIn ? 0 : 60` (AuthService.ts line 265). -/
def expirationBuffer (isOfficeAddIn : Bool) : Int :=
  if isOfficeAddIn then 0 else 60

/-- Split a character list at every occurrence of `c`, keeping empty pieces
(the semantics of JS `String.prototype.split` with a one-character separator). -/
def splitCharsOn (c : Char) : List Char → List (List Char)
  | [] => [[]]
  | x :: xs =>
    if x = c then [] :: splitCharsOn c xs
    else
      match splitCharsOn c xs with
      | [] => [[x]]
      | y :: ys => (x :: y) :: ys

/-- JS `token.split('.')`. -/
def jsSplitDot (s : String) : List String :=
  (splitCharsOn '.' s.data).map String.mk

/-- The `expiresAt` value computed by `AuthService.isTokenExpired`
(AuthService.ts lines 236-252): `user.expires_at` if truthy, otherwise — when
an ID token is present — the `exp` claim obtained by splitting the token on
`'.'` and, when there are exactly three parts, decoding the middle part.
`decode` stands for the composite of the browser builtins
`s => JSON.parse(atob(s)).exp` (external collaborators), returning `none` when
decoding throws or the parsed payload has no `exp` claim. -/
def expiryOf (decode : String → Option Nat) (u : StoredUser) : Option Nat :=
  let ea := u.expires_at
  if jsNumFalsy ea && jsStrTruthy u.id_token then
    match u.id_token with
    | some tok =>
      let tokenParts := jsSplitDot tok
      if tokenParts.length = 3 then decode (tokenParts.getD 1 "") else ea
    | none => ea
  else ea

/-- `AuthService.isTokenExpired` (AuthService.ts lines 230-283).  Returns
`true` when no (truthy) expiry can be determined, otherwise compares
`expiresAt - currentTime` against the buffer. -/
def isTokenExpired (decode : String → Option Nat) (isOfficeAddIn : Bool)
    (now : Nat) (user : Option StoredUser) : Bool :=
  match user with
  | none => true
  | some u =>
    match expiryOf decode u with
    | none => true
    | some e =>
      if e = 0 then true
      else decide ((e : Int) - (now : Int) ≤ expirationBuffer isOfficeAddIn)

/-- Outcome of the external `userManager.signinSilent()` call (network and
iframe behaviour of the provider, a black-box collaborator): resolution with a
user, resolution with a null user, or rejection classified exactly the way
`renewToken`'s catch block classifies error messages (AuthService.ts
lines 315-325). -/
inductive SilentOutcome where
  | success (u : StoredUser)
  | successNull
  | timeout
  | loginRequired
  | otherError
deriving DecidableEq

/-- `AuthService.handleRenewalTimeout` (AuthService.ts lines 332-338). -/
def handleRenewalTimeout (s : AuthState) : AuthState :=
  { s with isAuthenticated := false, user := none,
           error := some "Your session has expired. Please sign in again." }

/-- `AuthService.handleInteractionRequired` (AuthService.ts lines 341-347). -/
def handleInteractionRequired (s : AuthState) : AuthState :=
  { s with isAuthenticated := false, user := none,
           error := some "Please sign in again to continue." }

/-- `AuthService.handleRenewalError` (AuthService.ts lines 350-356). -/
def handleRenewalError (s : AuthState) : AuthState :=
  { s with isAuthenticated := false, user := none,
           error := some "Authentication failed. Please sign in again." }

/-- The `AuthenticationError` thrown by every failing `renewToken` path. -/
def tokenExpiredError : AuthenticationError :=
  { message := "Your session has expired. Please sign in again to continue."
    code := some "TOKEN_EXPIRED" }

/-- `AuthService.renewToken` (AuthService.ts lines 286-329), as a transformer
of `authState` returning the thrown `AuthenticationError` when the promise
rejects.  In the Office Add-in environment it clears the state and throws
without consulting the provider; otherwise the result follows the
`signinSilent` outcome. -/
def renewToken (isOfficeAddIn : Bool) (now : Nat) (outcome : SilentOutcome)
    (s : AuthState) : AuthState × Option AuthenticationError :=
  if isOfficeAddIn then
    ({ s with isAuthenticated := false, user := none,
              error := some "Your session has expired. Please sign in again." },
     some tokenExpiredError)
  else
    match outcome with
    | .success u =>
      ({ s with user := some (extractUserProfile now u.profile) }, none)
    | .successNull => (s, none)
    | .timeout => (handleRenewalTimeout s, some tokenExpiredError)
    | .loginRequired => (handleInteractionRequired s, some tokenExpiredError)
    | .otherError => (handleRenewalError s, some tokenExpiredError)

/-- Result of `AuthService.getIdToken`: the updated `authState`, the returned
token (`none` for JS `null`), and whether the renewal branch was entered
(i.e. whether `renewToken` was called). -/
structure IdTokenOut where
  state : AuthState
  token : Option String
  renewAttempted : Bool
deriving DecidableEq

/-- `AuthService.getIdToken` (AuthService.ts lines 202-227).  `storedBefore`
and `storedAfter` are the results of the two `userManager.getUser()` reads
(browser storage, external); `outcome` is the `signinSilent` outcome consumed
if `renewToken` is reached. -/
def getIdToken (decode : String → Option Nat) (isOfficeAddIn : Bool) (now : Nat)
    (outcome : SilentOutcome) (storedBefore storedAfter : Option StoredUser)
    (s : AuthState) : IdTokenOut :=
  if storedBefore.isNone || isTokenExpired decode isOfficeAddIn now storedBefore then
    match renewToken isOfficeAddIn now outcome s with
    | (s1, some _) =>
      { state := { s1 with isAuthenticated := false, user := none }
        token := none
        renewAttempted := true }
    | (s1, none) =>
      { state := s1
        token := jsStrOrNull (storedAfter.bind (·.id_token))
        renewAttempted := true }
  else
    { state := s
      token := jsStrOrNull (storedBefore.bind (·.id_token))
      renewAttempted := false }

/-- `AuthService.handleCallback` (AuthService.ts lines 160-177).  The outcome
of the external `signinRedirectCallback()` is `.ok ()` on success and
`.error m` on rejection, where `m` is the rejecting error's message (`none`
when the thrown value is not an `Error`). -/
def handleCallback (outcome : Except (Option String) Unit) (s : AuthState) :
    AuthState × Option AuthenticationError :=
  match outcome with
  | .ok _ => (s, none)
  | .error m =>
    ({ s with error := some (m.getD "Callback failed") },
     some { message := "Authentication callback failed", code := some "CALLBACK_ERROR" })

/-- `AuthService.signOut` (AuthService.ts lines 370-399).  `removeUserFails`
records whether the external `userManager.removeUser()` rejects; the catch
block swallows the rejection, and the state-clearing assignments are only
reached when `removeUser()` resolved. -/
def signOut (removeUserFails : Bool) (s : AuthState) : AuthState :=
  if removeUserFails then s
  else { isAuthenticated := false, user := none, error := none, isLoading := false }

/-- `AuthService.login` (AuthService.ts lines 144-157).  On success the page
navigates away; on rejection of `signinRedirect()` with message `m` the error
is recorded and a `LOGIN_ERROR` is thrown. -/
def login (outcome : Except (Option String) Unit) (s : AuthState) :
    AuthState × Option AuthenticationError :=
  let s1 := { s with isLoading := true, error := none }
  match outcome with
  | .ok _ => (s1, none)
  | .error m =>
    ({ s1 with error := some (m.getD "Login failed"), isLoading := false },
     some { message := "Login failed", code := some "LOGIN_ERROR" })

/-- The `addUserLoaded` event handler (AuthService.ts lines 69-76). -/
def onUserLoaded (now : Nat) (u : StoredUser) (_s : AuthState) : AuthState :=
  { isAuthenticated := true
    user := some (extractUserProfile now u.profile)
    isLoading := false
    error := none }

/-- The `addUserUnloaded` event handler (AuthService.ts lines 78-84). -/
def onUserUnloaded (s : AuthState) : AuthState :=
  { s with isAuthenticated := false, user := none, isLoading := false }

/-- The `addSilentRenewError` event handler (AuthService.ts lines 96-100). -/
def onSilentRenewError (msg : String) (s : AuthState) : AuthState :=
  { s with error := some msg }

/-- `AuthService.initialize` (AuthService.ts lines 118-141).  `hashHasToken`
is `window.location.hash.includes('id_token')`; `stored` the
`userManager.getUser()` result; `storedExpired` the external `user.expired`
getter of `oidc-client`; the `finally` block always clears `isLoading`. -/
def serviceInit (hashHasToken : Bool) (cbOutcome : Except (Option String) Unit)
    (stored : Option StoredUser) (storedExpired : Bool) (now : Nat)
    (s : AuthState) : AuthState :=
  let s1 := { s with isLoading := true }
  let s2 :=
    if hashHasToken then
      match handleCallback cbOutcome s1 with
      | (s', none) => s'
      | (s', some e) => { s' with error := some e.message }
    else
      match stored with
      | some u =>
        if !storedExpired then
          { s1 with isAuthenticated := true, user := some (extractUserProfile now u.profile) }
        else s1
      | none => s1
  { s2 with isLoading := false }

/-- The `authState` set up by the constructor (AuthService.ts lines 58-63). -/
def initialAuthState : AuthState :=
  { isAuthenticated := false, user := none, isLoading := false, error := none }

/-- One observable operation of the session manager: each public method and
each registered `oidc-client` event handler, with its external outcomes as
parameters.  Pure reads (`getUser`, `getAccessToken`, `isAuthenticated`,
`getAuthState`) and `logout` (which never touches `authState`) appear as the
identity step `logoutStep`. -/
inductive AuthStep : AuthState → AuthState → Prop where
  | userLoadedStep (now : Nat) (u : StoredUser) (s : AuthState) :
      AuthStep s (onUserLoaded now u s)
  | userUnloadedStep (s : AuthState) : AuthStep s (onUserUnloaded s)
  | silentRenewErrorStep (msg : String) (s : AuthState) :
      AuthStep s (onSilentRenewError msg s)
  | initializeStep (hashHasToken : Bool) (cbOutcome : Except (Option String) Unit)
      (stored : Option StoredUser) (storedExpired : Bool) (now : Nat) (s : AuthState) :
      AuthStep s (serviceInit hashHasToken cbOutcome stored storedExpired now s)
  | loginStep (outcome : Except (Option String) Unit) (s : AuthState) :
      AuthStep s (login outcome s).1
  | handleCallbackStep (outcome : Except (Option String) Unit) (s : AuthState) :
      AuthStep s (handleCallback outcome s).1
  | getIdTokenStep (decode : String → Option Nat) (isOfficeAddIn : Bool) (now : Nat)
      (outcome : SilentOutcome) (storedBefore storedAfter : Option StoredUser)
      (s : AuthState) :
      AuthStep s (getIdToken decode isOfficeAddIn now outcome storedBefore storedAfter s).state
  | renewTokenStep (isOfficeAddIn : Bool) (now : Nat) (outcome : SilentOutcome)
      (s : AuthState) :
      AuthStep s (renewToken isOfficeAddIn now outcome s).1
  | signOutStep (removeUserFails : Bool) (s : AuthState) :
      AuthStep s (signOut removeUserFails s)
  | logoutStep (s : AuthState) : AuthStep s s

/-- States reachable from the constructor's initial state by any sequence of
operations. -/
def Reachable (s : AuthState) : Prop :=
  Relation.ReflTransGen AuthStep initialAuthState s

/-- The data-model invariant of spec section 3: authenticated implies a
non-null user. -/
def AuthInv (s : AuthState) : Prop :=
  s.isAuthenticated = true → s.user.isSome = true

/-- The four identity fields of the user-identity panel rendered by
`displayUserIdentity` in `src/taskpane/taskpane.ts` (lines 1074-1110):
subject id, name, email and the expiry timestamp (the value interpolated
into `new Date(user.exp * 1000)`). -/
structure DisplayedProfile where
  sub : String
  name : String
  email : String
  exp : Nat
deriving DecidableEq

/-- Serialization of a `UserProfile` for display, following the template in
`taskpane.ts`: `user.sub`, `user.name`, `user.email || 'Not provided'`, and
the `user.exp` timestamp. -/
def displayProfile (u : UserProfile) : DisplayedProfile :=
  { sub := u.sub
    name := u.name
    email := if u.email = "" then "Not provided" else u.email
    exp := u.exp }

/-!
Object-identity model for `getAuthState` (AuthService.ts lines 407-409):
`return { ...this.authState }` builds a fresh object whose fields are copied,
so the `user` field of the copy is the same object reference as the internal
one.  JS objects live in a heap; references are indices.
-/

/-- An `AuthState` object as it sits in the JS heap: the `user` field is a
reference (heap index) to a `UserProfile` object, or `null`. -/
structure AuthStateObj where
  isAuthenticated : Bool
  userRef : Option Nat
  isLoading : Bool
  error : Option String
deriving DecidableEq

/-- A heap of `AuthState` objects and `UserProfile` objects; references are
list indices. -/
structure ObjHeap where
  states : List AuthStateObj
  profiles : List UserProfile
deriving DecidableEq

/-- Dereference an `AuthState` object. -/
def readState (h : ObjHeap) (r : Nat) : AuthStateObj :=
  h.states.getD r { isAuthenticated := false, userRef := none,
                    isLoading := false, error := none }

/-- The user profile observed through an `AuthState` reference (what a caller
sees as `state.user`). -/
def viewUser (h : ObjHeap) (r : Nat) : Option UserProfile :=
  (readState h r).userRef.bind (fun i => h.profiles.get? i)

/-- `AuthService.getAuthState` (AuthService.ts lines 407-409):
`{ ...this.authState }` allocates a new object with the same field values —
in particular the same `userRef` — and returns its reference. -/
def getAuthState (h : ObjHeap) (internalRef : Nat) : ObjHeap × Nat :=
  ({ h with states := h.states ++ [readState h internalRef] }, h.states.length)

/-- A caller mutating a top-level field of an `AuthState` object (e.g.
`snapshot.isAuthenticated = false`). -/
def setStateField (h : ObjHeap) (r : Nat) (f : AuthStateObj → AuthStateObj) : ObjHeap :=
  { h with states := h.states.set r (f (readState h r)) }

/-- A caller mutating the `name` field of a `UserProfile` object reached
through a reference (e.g. `snapshot.user.name = ...`). -/
def setProfileName (h : ObjHeap) (i : Nat) (nm : String) : ObjHeap :=
  let dflt : UserProfile :=
    { sub := "", name := "", email := "", email_verified := none,
      org := none, roles := [], iat := 0, exp := 0 }
  let p := h.profiles.getD i dflt
  { h with profiles := h.profiles.set i { p with name := nm } }

/-! Concrete sample values used by witnesses and counterexamples. -/

/-- A token payload with every optional claim absent. -/
def emptyPayload : TokenPayload :=
  { sub := "", name := none, preferred_username := none, email := none,
    email_verified := none, org := none, organization := none, roles := none,
    iat := none, exp := none }

/-- A fully populated sample token payload. -/
def samplePayload : TokenPayload :=
  { sub := "user-123", name := some "Jane Roe", preferred_username := none,
    email := some "jane@example.com", email_verified := some true,
    org := some "Org", organization := none, roles := some (.arr ["seller"]),
    iat := some 1000, exp := some 5000 }

/-- A `decode` function that always fails (payload segment undecodable). -/
def decodeNone : String → Option Nat := fun _ => none

/-- A `decode` function that decodes the segment `"b"` to the exp claim 100. -/
def decodeB : String → Option Nat := fun s => if s = "b" then some 100 else none

/-- A stored user with `expires_at` 1120 (120 seconds after the sample clock
value 1000). -/
def userExpiresSoon : StoredUser :=
  { expires_at := some 1120, id_token := none, access_token := none,
    profile := emptyPayload }

/-- A stored user without `expires_at` whose ID token `"a.b.c"` carries its
expiry in the payload segment. -/
def userWithTok : StoredUser :=
  { expires_at := none, id_token := some "a.b.c", access_token := none,
    profile := emptyPayload }

/-- A stored user with neither `expires_at` nor an ID token. -/
def userNoExpiry : StoredUser :=
  { expires_at := none, id_token := none, access_token := none,
    profile := emptyPayload }

/-- A stored user wrapping `samplePayload`. -/
def sampleStoredUser : StoredUser :=
  { expires_at := some 5000, id_token := some "h.p.s", access_token := some "at",
    profile := samplePayload }

/-- A payload whose `name` claim is present but the empty string. -/
def payloadEmptyName : TokenPayload :=
  { emptyPayload with sub := "user-1", name := some "",
                      email := some "a@b.example", exp := some 777 }

/-- An authenticated `authState`. -/
def sAuthed : AuthState :=
  { isAuthenticated := true, user := some (extractUserProfile 0 samplePayload),
    isLoading := false, error := none }

/-- A heap whose internal `authState` object (reference 0) points at the
profile object at reference 0. -/
def heap0 : ObjHeap :=
  { states := [{ isAuthenticated := true, userRef := some 0,
                 isLoading := false, error := none }],
    profiles := [extractUserProfile 0 samplePayload] }

/-!  Theorems. -/

/-- C2: in the Office Add-in environment every call to `renewToken` rejects
with an `AuthenticationError` whose code is `TOKEN_EXPIRED`, clears
`authState.isAuthenticated` and `authState.user`, and is independent of the
provider outcome (no provider request is consulted on this path). -/
theorem renewToken_officeAddIn_rejects (now : Nat) (o : SilentOutcome) (s : AuthState) :
    (renewToken true now o s).1.isAuthenticated = false ∧
    (renewToken true now o s).1.user = none ∧
    (renewToken true now o s).2 = some tokenExpiredError ∧
    tokenExpiredError.code = some "TOKEN_EXPIRED" ∧
    renewToken true now o s = renewToken true now SilentOutcome.successNull s :=
  ⟨rfl, rfl, rfl, rfl, rfl⟩

/-- C8: when the provider callback rejects, `handleCallback` rejects with an
`AuthenticationError` of code `CALLBACK_ERROR` and records the failure message
in `authState.error`; on success it does not reject. -/
theorem handleCallback_error_code (s : AuthState) (m : Option String) :
    (handleCallback (.error m) s).2 =
      some { message := "Authentication callback failed", code := some "CALLBACK_ERROR" } ∧
    (handleCallback (.error m) s).1.error = some (m.getD "Callback failed") ∧
    (handleCallback (.ok ()) s).2 = none := by
  refine ⟨rfl, ?_, rfl⟩
  cases m <;> rfl

/-- C4 counterexample: outside the host sandbox a token 120 seconds from
expiry — within the claimed 5-minute (300 s) buffer — is NOT treated as
needing renewal, because the code uses a 60-second buffer. -/
theorem isTokenExpired_no_five_minute_buffer :
    (1120 : Int) - (1000 : Int) ≤ 300 ∧
    isTokenExpired decodeNone false 1000 (some userExpiresSoon) = false := by decide

/-- C4 (amended): for a stored user with a determined nonzero expiry `e`, the
expiry check applies a buffer of 60 seconds (1 minute) outside the host
sandbox and of exactly 0 inside it. -/
theorem isTokenExpired_buffer (decode : String → Option Nat) (now e : Nat)
    (u : StoredUser) (he : expiryOf decode u = some e) (hpos : 0 < e) :
    isTokenExpired decode false now (some u) =
      decide ((e : Int) - (now : Int) ≤ 60) ∧
    isTokenExpired decode true now (some u) =
      decide ((e : Int) - (now : Int) ≤ 0) := by
  have h0 : e ≠ 0 := Nat.pos_iff_ne_zero.mp hpos
  constructor <;> simp [isTokenExpired, he, h0, expirationBuffer]

/-- Witness for the amended C4 at a concrete input. -/
theorem isTokenExpired_buffer_witness :
    isTokenExpired decodeNone false 1000 (some userExpiresSoon) =
      decide ((1120 : Int) - (1000 : Int) ≤ 60) ∧
    isTokenExpired decodeNone true 1000 (some userExpiresSoon) =
      decide ((1120 : Int) - (1000 : Int) ≤ 0) :=
  isTokenExpired_buffer decodeNone 1000 1120 userExpiresSoon (by decide) (by decide)

/-- C7 counterexample: a payload whose `name` claim is present but empty is
re-serialized with name `"Unknown"`, so extraction followed by display
serialization is not the identity on the name field. -/
theorem extract_display_name_not_preserved :
    payloadEmptyName.name = some "" ∧
    (displayProfile (extractUserProfile 0 payloadEmptyName)).name = "Unknown" := by
  decide

/-- C7 (amended): for payloads carrying a non-empty `name`, a non-empty
`email`, and a nonzero `exp` claim, extraction (`extractUserProfile`) followed
by display serialization preserves subject id, name, email and expiry
timestamp exactly. -/
theorem extract_display_roundtrip (now : Nat) (p : TokenPayload) (n m : String)
    (e : Nat) (hn : p.name = some n) (hn0 : n ≠ "") (hm : p.email = some m)
    (hm0 : m ≠ "") (he : p.exp = some e) (he0 : e ≠ 0) :
    displayProfile (extractUserProfile now p) =
      { sub := p.sub, name := n, email := m, exp := e } := by
  simp [displayProfile, extractUserProfile, jsStrOr, jsNumOr, hn, hm, he, hn0, hm0, he0]

/-- Witness for the amended C7 at a concrete payload. -/
theorem extract_display_roundtrip_witness :
    displayProfile (extractUserProfile 42 samplePayload) =
      { sub := "user-123", name := "Jane Roe", email := "jane@example.com",
        exp := 5000 } :=
  extract_display_roundtrip 42 samplePayload "Jane Roe" "jane@example.com" 5000
    rfl (by decide) rfl (by decide) rfl (by decide)

/-- C5 (code bug): when `userManager.removeUser()` rejects, `signOut` leaves
`authState` untouched — still authenticated with a non-null user — because
the catch block swallows the rejection before the state-clearing assignments
run; on the non-throwing path both fields are cleared together. -/
theorem signOut_removeUser_rejection_keeps_state :
    signOut true sAuthed = sAuthed ∧
    sAuthed.isAuthenticated = true ∧
    sAuthed.user.isSome = true ∧
    (signOut false sAuthed).isAuthenticated = false ∧
    (signOut false sAuthed).user = none := by decide

/-- Helper: whenever the stored user is judged expired, `getIdToken` enters
the renewal branch, and a rejecting `renewToken` makes it return `null`. -/
theorem getIdToken_renewal_branch (decode : String → Option Nat) (b : Bool)
    (now : Nat) (o : SilentOutcome) (ub ua : Option StoredUser) (s : AuthState)
    (hexp : isTokenExpired decode b now ub = true) :
    (getIdToken decode b now o ub ua s).renewAttempted = true ∧
    ((renewToken b now o s).2.isSome →
      (getIdToken decode b now o ub ua s).token = none) := by
  unfold getIdToken
  rw [hexp]
  simp only [Bool.or_true, if_true]
  rcases hr : renewToken b now o s with ⟨s1, err⟩
  cases err with
  | none => simp
  | some e => simp

/-- C3: for a stored user whose determined expiry lies in the past at call
time, `getIdToken` performs a renewal attempt (enters the `renewToken`
branch) before returning; whenever that attempt fails — as it always does in
the host sandbox — it returns `null` rather than the stale token. -/
theorem getIdToken_pastExpiry_renews (decode : String → Option Nat) (b : Bool)
    (now : Nat) (o : SilentOutcome) (ua : Option StoredUser) (s : AuthState)
    (u : StoredUser) (e : Nat) (he : expiryOf decode u = some e)
    (hpast : e < now) :
    isTokenExpired decode b now (some u) = true ∧
    (getIdToken decode b now o (some u) ua s).renewAttempted = true ∧
    ((renewToken b now o s).2.isSome →
      (getIdToken decode b now o (some u) ua s).token = none) ∧
    (getIdToken decode true now o (some u) ua s).token = none := by
  have hexp : ∀ b' : Bool, isTokenExpired decode b' now (some u) = true := by
    intro b'
    simp only [isTokenExpired, he]
    by_cases h0 : e = 0
    · simp [h0]
    · simp only [h0, if_false, decide_eq_true_eq]
      have hb : (0 : Int) ≤ expirationBuffer b' := by
        cases b' <;> simp [expirationBuffer]
      omega
  obtain ⟨h1, h2⟩ := getIdToken_renewal_branch decode b now o (some u) ua s (hexp b)
  obtain ⟨_, h4⟩ := getIdToken_renewal_branch decode true now o (some u) ua s (hexp true)
  exact ⟨hexp b, h1, h2, h4 (by cases o <;> rfl)⟩

/-- Witness for C3: an expired stored user in the host sandbox. -/
theorem getIdToken_pastExpiry_renews_witness :
    isTokenExpired decodeNone true 2000 (some userExpiresSoon) = true ∧
    (getIdToken decodeNone true 2000 SilentOutcome.successNull
        (some userExpiresSoon) none initialAuthState).renewAttempted = true ∧
    ((renewToken true 2000 SilentOutcome.successNull initialAuthState).2.isSome →
      (getIdToken decodeNone true 2000 SilentOutcome.successNull
          (some userExpiresSoon) none initialAuthState).token = none) ∧
    (getIdToken decodeNone true 2000 SilentOutcome.successNull
        (some userExpiresSoon) none initialAuthState).token = none :=
  getIdToken_pastExpiry_renews decodeNone true 2000 SilentOutcome.successNull
    none initialAuthState userExpiresSoon 1120 (by decide) (by decide)

/-- C6: when `expires_at` is absent and the stored ID token splits on `'.'`
into exactly three parts whose middle (payload) part decodes to an `exp`
claim `e`, the expiry used by the renewal decision is exactly `e`. -/
theorem isTokenExpired_uses_decoded_exp (decode : String → Option Nat)
    (b : Bool) (now e : Nat) (u : StoredUser) (tok hd pl sg : String)
    (hea : u.expires_at = none) (htok : u.id_token = some tok)
    (hsplit : jsSplitDot tok = [hd, pl, sg]) (hdec : decode pl = some e)
    (hpos : 0 < e) :
    expiryOf decode u = some e ∧
    isTokenExpired decode b now (some u) =
      decide ((e : Int) - (now : Int) ≤ expirationBuffer b) := by
  have htne : tok ≠ "" := by
    intro h
    rw [h] at hsplit
    have hempty : jsSplitDot "" = [""] := by decide
    rw [hempty] at hsplit
    simp at hsplit
  have h1 : expiryOf decode u = some e := by
    unfold expiryOf
    rw [hea, htok]
    simp [jsNumFalsy, jsStrTruthy, htne, hsplit, hdec]
  refine ⟨h1, ?_⟩
  simp [isTokenExpired, h1, Nat.pos_iff_ne_zero.mp hpos]

/-- Witness for C6: the token `"a.b.c"` whose payload segment decodes to 100. -/
theorem isTokenExpired_uses_decoded_exp_witness :
    expiryOf decodeB userWithTok = some 100 ∧
    isTokenExpired decodeB false 50 (some userWithTok) =
      decide ((100 : Int) - (50 : Int) ≤ expirationBuffer false) :=
  isTokenExpired_uses_decoded_exp decodeB false 50 100 userWithTok
    "a.b.c" "a" "b" "c" rfl rfl (by decide) (by decide) (by decide)

/-- C10: when no expiry can be determined at all (`expires_at` absent and the
ID token missing or undecodable), the stored user is treated as expired:
`isTokenExpired` returns `true`, `getIdToken` attempts renewal, and a failing
renewal makes it return `null` rather than a token of unknown validity. -/
theorem getIdToken_noExpiry_treatedExpired (decode : String → Option Nat)
    (b : Bool) (now : Nat) (o : SilentOutcome) (ua : Option StoredUser)
    (s : AuthState) (u : StoredUser) (_hea : u.expires_at = none)
    (hund : expiryOf decode u = none) :
    isTokenExpired decode b now (some u) = true ∧
    (getIdToken decode b now o (some u) ua s).renewAttempted = true ∧
    ((renewToken b now o s).2.isSome →
      (getIdToken decode b now o (some u) ua s).token = none) := by
  have hexp : isTokenExpired decode b now (some u) = true := by
    simp [isTokenExpired, hund]
  obtain ⟨h1, h2⟩ := getIdToken_renewal_branch decode b now o (some u) ua s hexp
  exact ⟨hexp, h1, h2⟩

/-- Witness for C10: a stored user with neither `expires_at` nor an ID token,
in the host sandbox where renewal always fails. -/
theorem getIdToken_noExpiry_treatedExpired_witness :
    isTokenExpired decodeNone true 1000 (some userNoExpiry) = true ∧
    (getIdToken decodeNone true 1000 SilentOutcome.successNull
        (some userNoExpiry) none initialAuthState).renewAttempted = true ∧
    ((renewToken true 1000 SilentOutcome.successNull initialAuthState).2.isSome →
      (getIdToken decodeNone true 1000 SilentOutcome.successNull
          (some userNoExpiry) none initialAuthState).token = none) :=
  getIdToken_noExpiry_treatedExpired decodeNone true 1000
    SilentOutcome.successNull none initialAuthState userNoExpiry rfl (by decide)

/-- C9 counterexample: `getAuthState` allocates a fresh snapshot object, but
the snapshot's `user` field is the same reference as the internal one;
mutating the nested profile's `name` through the snapshot changes the user
observed through the internal state. -/
theorem getAuthState_nested_mutation_visible :
    (getAuthState heap0 0).2 ≠ 0 ∧
    (readState (getAuthState heap0 0).1 (getAuthState heap0 0).2).userRef = some 0 ∧
    (readState heap0 0).userRef = some 0 ∧
    viewUser (setProfileName (getAuthState heap0 0).1 0 "mallory") 0 ≠
      viewUser (getAuthState heap0 0).1 0 := by decide

/-- C9 (amended): the snapshot returned by `getAuthState` is a fresh object
with the same field values, and mutating any of its top-level fields
(`isAuthenticated`, `user`, `isLoading`, `error`) leaves the internal state
object — and the user profile it exposes — unchanged; only mutation of the
shared nested profile object is visible internally. -/
theorem getAuthState_topLevel_mutation_frame (h : ObjHeap) (r : Nat)
    (f : AuthStateObj → AuthStateObj) (hr : r < h.states.length) :
    (getAuthState h r).2 ≠ r ∧
    readState (getAuthState h r).1 (getAuthState h r).2 = readState h r ∧
    readState (setStateField (getAuthState h r).1 (getAuthState h r).2 f) r =
      readState h r ∧
    viewUser (setStateField (getAuthState h r).1 (getAuthState h r).2 f) r =
      viewUser h r := by
  have hne : h.states.length ≠ r := by omega
  have h2 : readState (getAuthState h r).1 (getAuthState h r).2 = readState h r := by
    simp [readState, getAuthState, List.getD_eq_getElem?_getD,
          List.getElem?_concat_length]
  have h3 : readState (setStateField (getAuthState h r).1 (getAuthState h r).2 f) r =
      readState h r := by
    simp [readState, setStateField, getAuthState, List.getD_eq_getElem?_getD,
          List.getElem?_set, hne, List.getElem?_append, hr]
  refine ⟨by simpa [getAuthState] using hne, h2, h3, ?_⟩
  unfold viewUser
  rw [h3]
  rfl

/-- Witness for the amended C9: a concrete heap, snapshot, and top-level
mutation. -/
theorem getAuthState_topLevel_mutation_frame_witness :
    (getAuthState heap0 0).2 ≠ 0 ∧
    readState (getAuthState heap0 0).1 (getAuthState heap0 0).2 = readState heap0 0 ∧
    readState (setStateField (getAuthState heap0 0).1 (getAuthState heap0 0).2
        (fun o => { o with isAuthenticated := false })) 0 = readState heap0 0 ∧
    viewUser (setStateField (getAuthState heap0 0).1 (getAuthState heap0 0).2
        (fun o => { o with isAuthenticated := false })) 0 = viewUser heap0 0 :=
  getAuthState_topLevel_mutation_frame heap0 0
    (fun o => { o with isAuthenticated := false }) (by decide)

/-- Helper: `renewToken` preserves the authentication invariant. -/
theorem authInv_renewToken {s : AuthState} (b : Bool) (now : Nat)
    (o : SilentOutcome) (h : AuthInv s) : AuthInv (renewToken b now o s).1 := by
  cases b with
  | true => simp [renewToken, AuthInv]
  | false =>
    cases o with
    | success u => intro _; rfl
    | successNull => exact h
    | timeout => simp [renewToken, handleRenewalTimeout, AuthInv]
    | loginRequired => simp [renewToken, handleInteractionRequired, AuthInv]
    | otherError => simp [renewToken, handleRenewalError, AuthInv]

/-- Helper: the state left by `getIdToken` preserves the invariant. -/
theorem authInv_getIdToken {s : AuthState} (decode : String → Option Nat)
    (b : Bool) (now : Nat) (o : SilentOutcome) (ub ua : Option StoredUser)
    (h : AuthInv s) : AuthInv (getIdToken decode b now o ub ua s).state := by
  unfold getIdToken
  split
  · rcases hr : renewToken b now o s with ⟨s1, err⟩
    cases err with
    | none =>
      have h1 := authInv_renewToken (s := s) b now o h
      rw [hr] at h1
      exact h1
    | some e => simp [AuthInv]
  · exact h

/-- Helper: the state left by `serviceInit` preserves the invariant. -/
theorem authInv_serviceInit {s : AuthState} (hh : Bool)
    (cb : Except (Option String) Unit) (stored : Option StoredUser)
    (se : Bool) (now : Nat) (h : AuthInv s) :
    AuthInv (serviceInit hh cb stored se now s) := by
  unfold serviceInit
  cases hh with
  | true =>
    cases cb with
    | ok _ => exact fun ha => h ha
    | error m => exact fun ha => h ha
  | false =>
    cases stored with
    | none => exact fun ha => h ha
    | some u =>
      cases se with
      | true => exact fun ha => h ha
      | false => intro _; rfl

/-- Helper: every operation of the session manager preserves the invariant. -/
theorem authInv_step {s s' : AuthState} (hstep : AuthStep s s') (h : AuthInv s) :
    AuthInv s' := by
  cases hstep with
  | userLoadedStep now u s => intro _; rfl
  | userUnloadedStep s => simp [onUserUnloaded, AuthInv]
  | silentRenewErrorStep msg s => exact fun ha => h ha
  | initializeStep hh cb stored se now s => exact authInv_serviceInit hh cb stored se now h
  | loginStep o s =>
    cases o with
    | ok _ => exact fun ha => h ha
    | error m => exact fun ha => h ha
  | handleCallbackStep o s =>
    cases o with
    | ok _ => exact fun ha => h ha
    | error m => exact fun ha => h ha
  | getIdTokenStep decode b now o ub ua s => exact authInv_getIdToken decode b now o ub ua h
  | renewTokenStep b now o s => exact authInv_renewToken b now o h
  | signOutStep rf s =>
    cases rf with
    | true => exact h
    | false => simp [signOut, AuthInv]
  | logoutStep s => exact h

/-- C1: every reachable state of the session manager satisfies the invariant
`isAuthenticated = true → user ≠ null`; since each operation that clears one
of the two fields clears both in the same step, the fields never disagree. -/
theorem reachable_states_inv (s : AuthState) (h : Reachable s) : AuthInv s := by
  induction h with
  | refl => simp [AuthInv, initialAuthState]
  | tail _ hstep ih => exact authInv_step hstep ih

/-- Witness for C1: the state reached by one `userLoaded` event from the
constructor state. -/
theorem reachable_states_inv_witness :
    AuthInv (onUserLoaded 0 sampleStoredUser initialAuthState) :=
  reachable_states_inv _
    (Relation.ReflTransGen.tail Relation.ReflTransGen.refl
      (AuthStep.userLoadedStep 0 sampleStoredUser initialAuthState))

end OutlookConnector
